import Mathlib

/-!
Verification of the gym_sniper snipe-scheduling core against its
natural-language specification.

Shallow embedding conventions:
* Timestamps (`chrono::DateTime<Local>`) are modelled as `Int` values:
  local wall-clock milliseconds since the epoch.  `chrono::Duration`
  values are `Int` millisecond counts; `Duration::days`/`hours`/`minutes`
  are exact (no rounding), as in chrono.
* `DateTime::date_naive` (the local calendar date) is the floor division
  of the local-millisecond timestamp by the number of milliseconds per
  day.
* The file system is a map from path strings to parsed JSON documents
  (`FS`).  `serde_json` text rendering/parsing is treated as a
  transparent, lossless layer: the store holds the JSON structure that
  `serde` produces, and `fs::write` on the map always succeeds.
* Stateful Rust methods (`&mut self`, file I/O) become explicit
  state-passing functions returning the new queue / file system.
-/

/-! ## Time model (chrono) -/

def msPerSecond : Int := 1000

def msPerMinute : Int := 60000

def msPerHour : Int := 3600000

def msPerDay : Int := 86400000

/-- chrono `Duration::days n` in milliseconds. -/
def durDays (n : Int) : Int := n * msPerDay

/-- chrono `Duration::hours n` in milliseconds. -/
def durHours (n : Int) : Int := n * msPerHour

/-- chrono `Duration::minutes n` in milliseconds. -/
def durMinutes (n : Int) : Int := n * msPerMinute

/-- chrono `DateTime::date_naive`: the local calendar date of a local
timestamp, as a day index (floor division, so times before the epoch
still land on the correct day). -/
def date_naive (t : Int) : Int := t.fdiv msPerDay

/-- chrono `Duration::num_minutes`: whole minutes of a duration,
truncated toward zero (Rust integer division semantics). -/
def num_minutes (ms : Int) : Int := ms.tdiv msPerMinute

/-! ## Data model (src/snipe_queue.rs) -/

inductive SnipeStatus where
  | Pending
  | Completed
  | Failed
deriving DecidableEq

structure SnipeEntry where
  class_id : Nat
  class_name : String
  class_time : Int
  booking_window : Int
  trainer : Option String
  added_at : Int
  status : SnipeStatus
  error_message : Option String
deriving DecidableEq

structure SnipeQueue where
  snipes : List SnipeEntry
  file_path : Option String
deriving DecidableEq

/-! ## JSON model and serde encoding of the queue file -/

inductive Json where
  | null
  | bool (b : Bool)
  | num (n : Int)
  | str (s : String)
  | arr (elems : List Json)
  | obj (fields : List (String × Json))

/-- serde `rename_all = "lowercase"` encoding of `SnipeStatus`. -/
def encodeStatus : SnipeStatus → Json
  | .Pending => .str "pending"
  | .Completed => .str "completed"
  | .Failed => .str "failed"

/-- serde encoding of an `Option<String>` field without skip attributes:
`None` serializes as JSON null. -/
def encodeOptStr : Option String → Json
  | none => .null
  | some s => .str s

/-- serde encoding of one `SnipeEntry`, fields in declaration order;
`error_message` carries `skip_serializing_if = "Option::is_none"` so it
is omitted entirely when `None`.  Timestamps are kept at the model's
exact integer resolution. -/
def encodeEntry (e : SnipeEntry) : Json :=
  .obj ([("class_id", .num e.class_id),
         ("class_name", .str e.class_name),
         ("class_time", .num e.class_time),
         ("booking_window", .num e.booking_window),
         ("trainer", encodeOptStr e.trainer),
         ("added_at", .num e.added_at),
         ("status", encodeStatus e.status)] ++
        (match e.error_message with
         | none => []
         | some m => [("error_message", .str m)]))

/-- serde encoding of the whole `SnipeQueue` struct; `file_path` has
`#[serde(skip)]` and is not persisted. -/
def encodeQueue (q : SnipeQueue) : Json :=
  .obj [("snipes", .arr (q.snipes.map encodeEntry))]

/-- First-match field lookup in a JSON object, as serde sees a map. -/
def lookupField : List (String × Json) → String → Option Json
  | [], _ => none
  | (k, v) :: rest, key => if k = key then some v else lookupField rest key

def decodeStatus : Json → Option SnipeStatus
  | .str "pending" => some .Pending
  | .str "completed" => some .Completed
  | .str "failed" => some .Failed
  | _ => none

/-- serde decoding of an `Option<String>` field: a missing field or a
JSON null is `None`. -/
def decodeOptStr : Option Json → Option (Option String)
  | none => some none
  | some .null => some none
  | some (.str s) => some (some s)
  | some _ => none

def decodeStr : Option Json → Option String
  | some (.str s) => some s
  | _ => none

def decodeInt : Option Json → Option Int
  | some (.num n) => some n
  | _ => none

/-- Decoding of a `u64` field (non-negative integer). -/
def decodeNat : Option Json → Option Nat
  | some (.num n) => if n < 0 then none else some n.toNat
  | _ => none

def decodeEntry : Json → Option SnipeEntry
  | .obj fields => do
      let id ← decodeNat (lookupField fields "class_id")
      let name ← decodeStr (lookupField fields "class_name")
      let ct ← decodeInt (lookupField fields "class_time")
      let bw ← decodeInt (lookupField fields "booking_window")
      let tr ← decodeOptStr (lookupField fields "trainer")
      let aa ← decodeInt (lookupField fields "added_at")
      let stJson ← lookupField fields "status"
      let st ← decodeStatus stJson
      let em ← decodeOptStr (lookupField fields "error_message")
      some ⟨id, name, ct, bw, tr, aa, st, em⟩
  | _ => none

def decodeEntries : List Json → Option (List SnipeEntry)
  | [] => some []
  | j :: rest => do
      let e ← decodeEntry j
      let es ← decodeEntries rest
      some (e :: es)

/-- serde decoding of the persisted `SnipeQueue` struct: the `snipes`
field is required (a JSON array of entries); `file_path` is skipped and
defaults. -/
def decodeQueue : Json → Option (List SnipeEntry)
  | .obj fields =>
      match lookupField fields "snipes" with
      | some (.arr js) => decodeEntries js
      | _ => none
  | _ => none

/-! ## File-system model and queue persistence -/

/-- The file system: a map from paths to stored JSON documents. -/
def FS := String → Option Json

def fsWrite (fs : FS) (p : String) (j : Json) : FS :=
  fun q => if q = p then some j else fs q

/-- `SNIPES_FILE` constant from src/snipe_queue.rs. -/
def SNIPES_FILE : String := "snipes.json"

/-- Path used by `SnipeQueue::save`: the stored `file_path`, defaulting
to `SNIPES_FILE`. -/
def SnipeQueue.savePath (q : SnipeQueue) : String :=
  q.file_path.getD SNIPES_FILE

/-- `SnipeQueue::save`: serialize the whole store and rewrite the file.
In the map model the write always succeeds. -/
def SnipeQueue.save (q : SnipeQueue) (fs : FS) : FS :=
  fsWrite fs q.savePath (encodeQueue q)

/-- `SnipeQueue::load_from`: if the path does not exist, return an empty
queue remembering the path (creating no file); otherwise read and parse.
The second component is the file system after the call — `load_from`
only reads, so it is returned untouched in every branch. -/
def SnipeQueue.load_from (fs : FS) (path : String) :
    Except String SnipeQueue × FS :=
  match fs path with
  | none => (.ok { snipes := [], file_path := some path }, fs)
  | some content =>
      match decodeQueue content with
      | none => (.error "Failed to parse snipes file", fs)
      | some entries => (.ok { snipes := entries, file_path := some path }, fs)

/-! ## Queue operations (src/snipe_queue.rs) -/

/-- `SnipeQueue::has_snipe_for_date`: the first entry that is Pending
and whose class_time falls on the given calendar date. -/
def SnipeQueue.has_snipe_for_date (q : SnipeQueue) (date : Int) :
    Option SnipeEntry :=
  q.snipes.find? fun s =>
    s.status == SnipeStatus.Pending && date_naive s.class_time == date

/-- Conflict errors returned by `SnipeQueue::add`.  The Rust code builds
descriptive `GymSniperError::Config` strings; the payloads here carry
exactly the data those strings identify (the conflicting existing entry,
resp. the duplicated class id). -/
inductive AddError where
  | dateConflict (class_date : Int) (existing : SnipeEntry)
  | duplicateClassId (class_id : Nat)
deriving DecidableEq

/-- `SnipeQueue::add`: reject a same-date Pending conflict, then a
duplicate class id, before pushing the entry and saving. -/
def SnipeQueue.add (q : SnipeQueue) (fs : FS) (entry : SnipeEntry) :
    Except AddError Unit × SnipeQueue × FS :=
  let class_date := date_naive entry.class_time
  match q.has_snipe_for_date class_date with
  | some existing => (.error (.dateConflict class_date existing), q, fs)
  | none =>
      if q.snipes.any (fun s => s.class_id == entry.class_id) then
        (.error (.duplicateClassId entry.class_id), q, fs)
      else
        let q' : SnipeQueue := { q with snipes := q.snipes ++ [entry] }
        (.ok (), q', q'.save fs)

/-- Sort relation used by `pending_snipes`: ascending `booking_window`
(`sort_by_key`). -/
def bwLE (a b : SnipeEntry) : Prop := a.booking_window ≤ b.booking_window

instance : DecidableRel bwLE := fun a b => Int.decLe a.booking_window b.booking_window

instance : IsTotal SnipeEntry bwLE := ⟨fun a b => Int.le_total a.booking_window b.booking_window⟩

instance : IsTrans SnipeEntry bwLE := ⟨fun _ _ _ h h' => le_trans h h'⟩

/-- `SnipeQueue::pending_snipes`: Pending entries, stably sorted by
`booking_window` ascending (`Vec::sort_by_key` is a stable sort, so any
stable ascending sort — here insertion sort — produces the same list). -/
def SnipeQueue.pending_snipes (q : SnipeQueue) : List SnipeEntry :=
  List.insertionSort bwLE
    (q.snipes.filter fun s => s.status == SnipeStatus.Pending)

/-- `SnipeQueue::cleanup_old_entries`: retain entries that are Pending
or whose class_time is strictly after `now - 7 days`; save only when
something was removed.  `now` is passed explicitly (`Local::now()` in
Rust). -/
def SnipeQueue.cleanup_old_entries (q : SnipeQueue) (fs : FS) (now : Int) :
    SnipeQueue × FS :=
  let cutoff := now - durDays 7
  let kept := q.snipes.filter fun s =>
    s.status == SnipeStatus.Pending || decide (cutoff < s.class_time)
  let q' : SnipeQueue := { q with snipes := kept }
  if kept.length < q.snipes.length then (q', q'.save fs) else (q', fs)

/-! ## Booking-window offset (util.rs, snipe.rs, scheduler.rs, gui) -/

/-- `util::booking_window`: `Duration::days(7) + Duration::hours(2)`. -/
def booking_window : Int := durDays 7 + durHours 2

/-- src/snipe.rs line 17 (`snipe_class`):
`class_time - Duration::days(7) - Duration::hours(2)`. -/
def snipe_booking_window_opens (class_time : Int) : Int :=
  class_time - durDays 7 - durHours 2

/-- src/scheduler.rs line 26 (`run_scheduler`, the periodic scheduler):
`class_time - Duration::days(7) - Duration::hours(2)`. -/
def scheduler_booking_opens (class_time : Int) : Int :=
  class_time - durDays 7 - durHours 2

/-- src/gui/async_bridge.rs (`Command::AddToSnipeQueue`): the
`booking_window` value stored into the queued `SnipeEntry`, i.e. the
queue's sort key: `start_time - Duration::days(7) - Duration::hours(2)`. -/
def bridge_booking_window (start_time : Int) : Int :=
  start_time - durDays 7 - durHours 2

/-! ## Attempt loop (src/snipe.rs, `attempt_booking`) -/

/-- Substring test on character lists: does the second list contain the
first as a contiguous run?  Models Rust `str::contains` (case-sensitive
exact token match). -/
def charsStartWith : List Char → List Char → Bool
  | [], _ => true
  | _ :: _, [] => false
  | a :: as, b :: bs => a == b && charsStartWith as bs

def charsContain (pat : List Char) : List Char → Bool
  | [] => charsStartWith pat []
  | b :: bs => charsStartWith pat (b :: bs) || charsContain pat bs

/-- Rust `haystack.contains(pat)`. -/
def strContains (haystack pat : String) : Bool :=
  charsContain pat.data haystack.data

/-- Result of one `client.book_class` (reserveSlot) call.  Success
payloads (class name, start time) only feed log/notification text and
are elided. -/
inductive BookResult where
  | ok
  | err (msg : String)
deriving DecidableEq

/-- Observable side effects of `attempt_booking`, in order:
reservation calls (`book_class`), inter-attempt sleeps, and the email
notifications sent through the Notifier collaborator.  Log lines are not
notifications and are not traced. -/
inductive Event where
  | call (attempt : Nat)
  | sleepMs (ms : Nat)
  | emailSuccess
  | emailFailure (reason : String)
deriving DecidableEq

def Event.isCall : Event → Bool
  | .call _ => true
  | _ => false

def Event.isNotif : Event → Bool
  | .emailSuccess => true
  | .emailFailure _ => true
  | _ => false

/-- Number of notifications (success or failure emails) in a trace. -/
def notifCount (tr : List Event) : Nat :=
  (tr.filter Event.isNotif).length

/-- `MAX_ATTEMPTS` constant from src/snipe.rs. -/
def MAX_ATTEMPTS : Nat := 10

/-- The body of the `loop` in `attempt_booking`.  `book n` is the
outcome of the n-th `book_class` call (the stub booking service);
`email` is whether an email notifier is configured (`config.email`);
`attempts` is the counter before the `attempts += 1` of the next
iteration.  `fuel` bounds the recursion; the loop's own
`attempts >= MAX_ATTEMPTS` check fires before fuel `MAX_ATTEMPTS`
(started at `attempts = 0`) can run out, so the fuel-exhausted branch is
unreachable at the call site in `attempt_booking`. -/
def bookLoop (email : Bool) (book : Nat → BookResult) :
    Nat → Nat → List Event × Except String Unit
  | _, 0 => ([], .error "loop fuel exhausted")
  | attempts, fuel + 1 =>
      let a := attempts + 1
      let afterFail : List Event × Except String Unit :=
        if a ≥ MAX_ATTEMPTS then
          (Event.call a ::
             (if email then [Event.emailFailure "Max booking attempts reached"] else []),
           .error "Max attempts reached")
        else
          let rest := bookLoop email book a fuel
          (Event.call a :: Event.sleepMs 200 :: rest.1, rest.2)
      match book a with
      | .ok =>
          (Event.call a :: (if email then [Event.emailSuccess] else []), .ok ())
      | .err msg =>
          if strContains msg "DailyBookingLimitReached" then
            (Event.call a ::
               (if email then
                  [Event.emailFailure
                    "Daily booking limit reached - you already have a class booked on this day"]
                else []),
             .error "Daily booking limit reached")
          else if strContains msg "TooSoonToBook" then
            afterFail
          else if strContains msg "already" || strContains msg "Already" then
            ([Event.call a], .ok ())
          else if strContains msg "Full" || strContains msg "full"
                  || strContains msg "Awaitable" then
            afterFail
          else
            afterFail

/-- `attempt_booking`: a fresh login (whose failure propagates with no
attempt and no notification), then the retry loop.  The
`get_class_details` call only supplies notification text (`.ok()`
swallows its errors) and is elided. -/
def attempt_booking (login : Except String Unit) (email : Bool)
    (book : Nat → BookResult) : List Event × Except String Unit :=
  match login with
  | .error e => ([], .error e)
  | .ok _ => bookLoop email book 0 MAX_ATTEMPTS

/-- An error string containing none of the classification tokens of
`attempt_booking`: not daily-limit, not too-soon, not already, not
full/awaitable. -/
def genericError (msg : String) : Bool :=
  !(strContains msg "DailyBookingLimitReached"
    || strContains msg "TooSoonToBook"
    || strContains msg "already" || strContains msg "Already"
    || strContains msg "Full" || strContains msg "full"
    || strContains msg "Awaitable")

/-- The call/sleep trace produced by a run of `bookLoop` in which every
attempt falls through to the retry path: calls numbered from
`attempts + 1`, a 200 ms sleep between consecutive calls, and no sleep
after the final call. -/
def genTrace : Nat → Nat → List Event
  | _, 0 => []
  | attempts, 1 => [Event.call (attempts + 1)]
  | attempts, fuel + 2 =>
      Event.call (attempts + 1) :: Event.sleepMs 200 :: genTrace (attempts + 1) (fuel + 1)

/-! ## Snipe daemon iteration (src/snipe.rs, `run_snipe_daemon`) -/

/-- What one daemon iteration decides to do before looping again.
`sleepSecs n` iterations perform no login and no booking call; the
`snipe` branch is the only one that logs in and runs `snipe_class`. -/
inductive DaemonStep where
  | sleepSecs (secs : Nat)
  | snipe (class_id : Nat)
deriving DecidableEq

/-- One iteration of the `run_snipe_daemon` loop, up to the decision
point: re-load the queue from disk, clean up old entries, and either
sleep (empty queue, or earliest window still far away — tiered by
whole-minute truncation) or proceed to login and snipe.  Returns the
decision and the file system after cleanup; a load error propagates as
in Rust (`SnipeQueue::load()?`). -/
def snipe_daemon_iteration (fs : FS) (now : Int) :
    Except String (DaemonStep × FS) :=
  match (SnipeQueue.load_from fs SNIPES_FILE).1 with
  | .error e => .error e
  | .ok q =>
      let cleaned := q.cleanup_old_entries fs now
      match cleaned.1.pending_snipes with
      | [] => .ok (.sleepSecs 60, cleaned.2)
      | next :: _ =>
          let time_until_window := next.booking_window - now
          if num_minutes time_until_window > 5 then
            let sleep_secs : Nat :=
              if num_minutes time_until_window > 60 then 30 * 60
              else if num_minutes time_until_window > 30 then 10 * 60
              else 60
            .ok (.sleepSecs sleep_secs, cleaned.2)
          else
            .ok (.snipe next.class_id, cleaned.2)

/-! ## Helper lemmas -/

/-- Both branches of the save-on-removal `if` in `cleanup_old_entries`
return the same filtered queue as first component. -/
theorem cleanup_old_entries_fst (q : SnipeQueue) (fs : FS) (now : Int) :
    (q.cleanup_old_entries fs now).1 =
      { q with snipes := q.snipes.filter fun s =>
          s.status == SnipeStatus.Pending || decide (now - durDays 7 < s.class_time) } := by
  simp only [SnipeQueue.cleanup_old_entries]
  split <;> rfl

/-- `load_from` performs no writes: the file system comes back
unchanged. -/
theorem load_from_fs_unchanged (fs : FS) (p : String) :
    (SnipeQueue.load_from fs p).2 = fs := by
  simp only [SnipeQueue.load_from]
  cases fs p with
  | none => rfl
  | some c => cases hd : decodeQueue c <;> simp [hd]

theorem decodeEntry_encodeEntry (e : SnipeEntry) :
    decodeEntry (encodeEntry e) = some e := by
  obtain ⟨id, name, ct, bw, tr, aa, st, em⟩ := e
  cases tr <;> cases em <;> cases st <;> rfl

theorem decodeEntries_encode (l : List SnipeEntry) :
    decodeEntries (l.map encodeEntry) = some l := by
  induction l with
  | nil => rfl
  | cons e rest ih => simp [decodeEntries, decodeEntry_encodeEntry, ih]

/-! ## Claim theorems -/

/-- C1: `SnipeQueue.add` returns a conflict error — leaving both the
entry list and the on-disk store untouched — whenever a Pending entry
already occupies the new entry's calendar date, or any entry (regardless
of status) already carries the same classId. -/
theorem add_conflict_rejected (q : SnipeQueue) (fs : FS) (e : SnipeEntry)
    (h : (∃ s ∈ q.snipes, s.status = SnipeStatus.Pending ∧
            date_naive s.class_time = date_naive e.class_time)
       ∨ ∃ s ∈ q.snipes, s.class_id = e.class_id) :
    ∃ err, q.add fs e = (.error err, q, fs) := by
  cases hfind : q.has_snipe_for_date (date_naive e.class_time) with
  | some existing =>
      exact ⟨.dateConflict (date_naive e.class_time) existing,
        by simp [SnipeQueue.add, hfind]⟩
  | none =>
      rcases h with ⟨s, hs, hp, hd⟩ | ⟨s, hs, hid⟩
      · exfalso
        simp only [SnipeQueue.has_snipe_for_date] at hfind
        have h2 := List.find?_eq_none.mp hfind s hs
        simp [hp, hd] at h2
      · have hany : q.snipes.any (fun s => s.class_id == e.class_id) = true :=
          List.any_eq_true.mpr ⟨s, hs, by simp [hid]⟩
        exact ⟨.duplicateClassId e.class_id,
          by simp [SnipeQueue.add, hfind, hany]⟩

/-- C1 witness: a queue holding a Pending entry on day 0 rejects a
second entry whose class time falls on the same day, leaving queue and
file system unchanged. -/
theorem add_conflict_rejected_witness :
    ∃ err,
      SnipeQueue.add
        ⟨[⟨100, "Yoga", 0, -100, none, 0, .Pending, none⟩], some "q.json"⟩
        (fun _ => none)
        ⟨200, "Spin", 50, -50, none, 0, .Pending, none⟩
      = (.error err,
         ⟨[⟨100, "Yoga", 0, -100, none, 0, .Pending, none⟩], some "q.json"⟩,
         (fun _ => none : FS)) :=
  add_conflict_rejected _ _ _
    (Or.inl ⟨⟨100, "Yoga", 0, -100, none, 0, .Pending, none⟩,
      List.mem_singleton.mpr rfl, rfl, by decide⟩)

/-- C2: `pending_snipes` is ascending in `booking_window`, is exactly
the Pending entries of the store (a permutation of the Pending filter,
whatever the insertion order was), and never contains a Completed or
Failed entry. -/
theorem pending_snipes_sorted_pending_only (q : SnipeQueue) :
    List.Pairwise (fun a b : SnipeEntry => a.booking_window ≤ b.booking_window)
      q.pending_snipes
    ∧ q.pending_snipes.Perm
        (q.snipes.filter fun s => s.status == SnipeStatus.Pending)
    ∧ ∀ e ∈ q.pending_snipes, e.status = SnipeStatus.Pending := by
  refine ⟨List.sorted_insertionSort bwLE _, List.perm_insertionSort bwLE _, ?_⟩
  intro e he
  have hmem : e ∈ q.snipes.filter (fun s => s.status == SnipeStatus.Pending) :=
    (List.perm_insertionSort bwLE _).mem_iff.mp he
  have := (List.mem_filter.mp hmem).2
  simpa using this

/-- C6: every site computing the reservation-window opening instant —
`snipe_class` (snipe.rs), the periodic scheduler (scheduler.rs), and the
GUI bridge value stored as the queue's `booking_window` sort key — uses
the exact fixed offset of `util::booking_window` (7 days + 2 hours),
with no rounding. -/
theorem opening_instant_fixed_offset (t : Int) :
    snipe_booking_window_opens t = t - booking_window
    ∧ scheduler_booking_opens t = t - booking_window
    ∧ bridge_booking_window t = t - booking_window
    ∧ booking_window = durDays 7 + durHours 2 := by
  refine ⟨?_, ?_, ?_, rfl⟩ <;>
    simp [snipe_booking_window_opens, scheduler_booking_opens,
      bridge_booking_window, booking_window] <;> ring

/-- C7 counterexample: a Completed entry whose classTime is exactly
now − 7 days — hence not "older than now minus 7 days" — is nevertheless
removed by `cleanup_old_entries` (the code keeps only entries strictly
newer than the cutoff), so the claim as stated is false. -/
theorem cleanup_cutoff_boundary_removed :
    (SnipeQueue.cleanup_old_entries
        ⟨[⟨1, "Old", 86400000, 0, none, 0, .Completed, none⟩], some "q.json"⟩
        (fun _ => none) 691200000).1.snipes = []
    ∧ ¬((86400000 : Int) < 691200000 - durDays 7)
    ∧ SnipeStatus.Completed ≠ SnipeStatus.Pending :=
  ⟨rfl, by decide, by decide⟩

/-- C7 amended: `cleanup_old_entries` keeps exactly the entries that are
Pending or whose classTime is strictly newer than now − 7 days;
equivalently it removes exactly the non-Pending entries whose classTime
is at or before the cutoff.  In particular a Pending entry is never
removed no matter how old its classTime is. -/
theorem cleanup_removes_upto_cutoff_nonpending (q : SnipeQueue) (fs : FS)
    (now : Int) (e : SnipeEntry) :
    e ∈ (q.cleanup_old_entries fs now).1.snipes ↔
      e ∈ q.snipes ∧
        (e.status = SnipeStatus.Pending ∨ now - durDays 7 < e.class_time) := by
  rw [cleanup_old_entries_fst]
  simp [List.mem_filter]

/-- C9: saving a queue and loading from the same path reproduces the
queue exactly — same entries in the same order with all fields
(classId, className, status, timestamps, optional trainer and
error_message) intact — and the load writes nothing further. -/
theorem save_load_roundtrip (q : SnipeQueue) (fs : FS) (p : String)
    (h : q.file_path = some p) :
    SnipeQueue.load_from (q.save fs) p = (.ok q, q.save fs) := by
  obtain ⟨snipes, fp⟩ := q
  subst h
  have hread : (SnipeQueue.save ⟨snipes, some p⟩ fs) p
      = some (encodeQueue ⟨snipes, some p⟩) := by
    simp [SnipeQueue.save, fsWrite, SnipeQueue.savePath]
  have hdec : decodeQueue (encodeQueue ⟨snipes, some p⟩) = some snipes := by
    simp [decodeQueue, encodeQueue, lookupField, decodeEntries_encode]
  simp [SnipeQueue.load_from, hread, hdec]

/-- C9 witness: a two-entry queue exercising both present and absent
optional fields and distinct statuses round-trips through save/load. -/
theorem save_load_roundtrip_witness :
    SnipeQueue.load_from
      (SnipeQueue.save
        ⟨[⟨1, "Yoga Flow", 100, 50, some "Ann", 10, .Failed, some "boom"⟩,
          ⟨2, "Spin", 200, 150, none, 20, .Pending, none⟩], some "q.json"⟩
        (fun _ => none))
      "q.json"
    = (.ok ⟨[⟨1, "Yoga Flow", 100, 50, some "Ann", 10, .Failed, some "boom"⟩,
             ⟨2, "Spin", 200, 150, none, 20, .Pending, none⟩], some "q.json"⟩,
       SnipeQueue.save
        ⟨[⟨1, "Yoga Flow", 100, 50, some "Ann", 10, .Failed, some "boom"⟩,
          ⟨2, "Spin", 200, 150, none, 20, .Pending, none⟩], some "q.json"⟩
        (fun _ => none)) :=
  save_load_roundtrip _ _ _ rfl

/-- C10: loading from a path with no file succeeds with an empty queue
(remembering the path for later saves) and leaves the file system
exactly as it was — no file is created. -/
theorem load_from_missing_ok_empty (fs : FS) (p : String) (h : fs p = none) :
    SnipeQueue.load_from fs p = (.ok ⟨[], some p⟩, fs) := by
  simp [SnipeQueue.load_from, h]

/-- C10 witness: loading `snipes.json` from an empty file system. -/
theorem load_from_missing_ok_empty_witness :
    SnipeQueue.load_from (fun _ => none) SNIPES_FILE
      = (.ok ⟨[], some SNIPES_FILE⟩, (fun _ => none : FS)) :=
  load_from_missing_ok_empty (fun _ => none) SNIPES_FILE rfl

/-! ## Attempt-loop helper lemmas -/

/-- One unfolding step of `bookLoop` (the loop body with the `let`s
zeta-reduced). -/
theorem bookLoop_succ (email : Bool) (book : Nat → BookResult)
    (attempts fuel : Nat) :
    bookLoop email book attempts (fuel + 1)
      = match book (attempts + 1) with
        | .ok =>
            (Event.call (attempts + 1) ::
               (if email then [Event.emailSuccess] else []),
             .ok ())
        | .err msg =>
            if strContains msg "DailyBookingLimitReached" then
              (Event.call (attempts + 1) ::
                 (if email then
                    [Event.emailFailure
                      "Daily booking limit reached - you already have a class booked on this day"]
                  else []),
               .error "Daily booking limit reached")
            else if strContains msg "TooSoonToBook" then
              (if attempts + 1 ≥ MAX_ATTEMPTS then
                 (Event.call (attempts + 1) ::
                    (if email then [Event.emailFailure "Max booking attempts reached"] else []),
                  .error "Max attempts reached")
               else
                 (Event.call (attempts + 1) :: Event.sleepMs 200 ::
                    (bookLoop email book (attempts + 1) fuel).1,
                  (bookLoop email book (attempts + 1) fuel).2))
            else if strContains msg "already" || strContains msg "Already" then
              ([Event.call (attempts + 1)], .ok ())
            else if strContains msg "Full" || strContains msg "full"
                    || strContains msg "Awaitable" then
              (if attempts + 1 ≥ MAX_ATTEMPTS then
                 (Event.call (attempts + 1) ::
                    (if email then [Event.emailFailure "Max booking attempts reached"] else []),
                  .error "Max attempts reached")
               else
                 (Event.call (attempts + 1) :: Event.sleepMs 200 ::
                    (bookLoop email book (attempts + 1) fuel).1,
                  (bookLoop email book (attempts + 1) fuel).2))
            else
              (if attempts + 1 ≥ MAX_ATTEMPTS then
                 (Event.call (attempts + 1) ::
                    (if email then [Event.emailFailure "Max booking attempts reached"] else []),
                  .error "Max attempts reached")
               else
                 (Event.call (attempts + 1) :: Event.sleepMs 200 ::
                    (bookLoop email book (attempts + 1) fuel).1,
                  (bookLoop email book (attempts + 1) fuel).2)) := rfl

theorem genTrace_one (attempts : Nat) :
    genTrace attempts 1 = [Event.call (attempts + 1)] := rfl

theorem genTrace_succ_succ (attempts fuel : Nat) :
    genTrace attempts (fuel + 1 + 1)
      = Event.call (attempts + 1) :: Event.sleepMs 200 ::
          genTrace (attempts + 1) (fuel + 1) := rfl

/-- A generic error matches none of the classification tokens. -/
theorem genericError_tokens {s : String} (h : genericError s = true) :
    strContains s "DailyBookingLimitReached" = false
    ∧ strContains s "TooSoonToBook" = false
    ∧ strContains s "already" = false
    ∧ strContains s "Already" = false
    ∧ strContains s "Full" = false
    ∧ strContains s "full" = false
    ∧ strContains s "Awaitable" = false := by
  simp only [genericError, Bool.not_eq_true', Bool.or_eq_false_iff] at h
  obtain ⟨⟨⟨⟨⟨⟨h1, h2⟩, h3⟩, h4⟩, h5⟩, h6⟩, h7⟩ := h
  exact ⟨h1, h2, h3, h4, h5, h6, h7⟩

/-- Closed form of `bookLoop` against a stub that always fails with a
generic error: the loop burns its whole budget, sleeping 200 ms between
consecutive calls, and fails with the max-attempts error. -/
theorem bookLoop_generic_err (email : Bool) (m : Nat → String)
    (hg : ∀ n, genericError (m n) = true) :
    ∀ fuel attempts, attempts + fuel = MAX_ATTEMPTS → 0 < fuel →
      bookLoop email (fun n => .err (m n)) attempts fuel
        = (genTrace attempts fuel
            ++ (if email then [Event.emailFailure "Max booking attempts reached"] else []),
           .error "Max attempts reached") := by
  intro fuel
  induction fuel with
  | zero => intro attempts _ h0; omega
  | succ f ih =>
      intro attempts hsum _
      obtain ⟨hda, htoo, hal, hAl, hFu, hfu, hAw⟩ := genericError_tokens (hg (attempts + 1))
      rw [bookLoop_succ]
      by_cases hmax : attempts + 1 ≥ MAX_ATTEMPTS
      · have hf : f = 0 := by simp [MAX_ATTEMPTS] at hsum hmax; omega
        subst hf
        simp [hda, htoo, hal, hAl, hFu, hfu, hAw, hmax, genTrace_one]
      · obtain ⟨g, rfl⟩ : ∃ g, f = g + 1 := by
          rcases f with _ | g
          · exfalso; simp [MAX_ATTEMPTS] at hsum hmax; omega
          · exact ⟨g, rfl⟩
        have hrec := ih (attempts + 1) (by omega) (by omega)
        simp [hda, htoo, hal, hAl, hFu, hfu, hAw, hmax, hrec, genTrace_succ_succ]

/-- At most one email notification can appear in a `bookLoop` trace. -/
theorem notifCount_bookLoop_le_one (email : Bool) (book : Nat → BookResult) :
    ∀ fuel attempts, notifCount (bookLoop email book attempts fuel).1 ≤ 1 := by
  intro fuel
  induction fuel with
  | zero => intro attempts; simp [bookLoop, notifCount]
  | succ f ih =>
      intro attempts
      rw [bookLoop_succ]
      cases hb : book (attempts + 1) with
      | ok => cases email <;> simp [notifCount, Event.isNotif]
      | err msg =>
          by_cases h1 : strContains msg "DailyBookingLimitReached" = true <;>
          by_cases h2 : strContains msg "TooSoonToBook" = true <;>
          by_cases h3 : (strContains msg "already" || strContains msg "Already") = true <;>
          by_cases h4 : (strContains msg "Full" || strContains msg "full"
            || strContains msg "Awaitable") = true <;>
          by_cases h5 : attempts + 1 ≥ MAX_ATTEMPTS <;>
          cases email <;>
          simp_all [notifCount, Event.isNotif] <;>
          (rw [if_neg (show ¬ MAX_ATTEMPTS ≤ attempts + 1 by omega)];
           simpa [notifCount, Event.isNotif] using ih (attempts + 1))

/-- C3: against a stub whose reservation call always fails with a
generic error (none of the classification tokens), `attempt_booking`
makes exactly `MAX_ATTEMPTS = 10` reservation calls — a 200 ms sleep
between consecutive calls and none after the last — then returns the
max-attempts failure. -/
theorem attempt_booking_generic_exhausts_budget (email : Bool)
    (m : Nat → String) (hg : ∀ n, genericError (m n) = true) :
    attempt_booking (.ok ()) email (fun n => .err (m n))
      = ([.call 1, .sleepMs 200, .call 2, .sleepMs 200, .call 3, .sleepMs 200,
          .call 4, .sleepMs 200, .call 5, .sleepMs 200, .call 6, .sleepMs 200,
          .call 7, .sleepMs 200, .call 8, .sleepMs 200, .call 9, .sleepMs 200,
          .call 10]
          ++ (if email then [Event.emailFailure "Max booking attempts reached"] else []),
         .error "Max attempts reached")
    ∧ ((attempt_booking (.ok ()) email (fun n => .err (m n))).1.filter
         Event.isCall).length = MAX_ATTEMPTS := by
  have h := bookLoop_generic_err email m hg MAX_ATTEMPTS 0 (by simp) (by decide)
  have hgt : genTrace 0 MAX_ATTEMPTS
      = [.call 1, .sleepMs 200, .call 2, .sleepMs 200, .call 3, .sleepMs 200,
         .call 4, .sleepMs 200, .call 5, .sleepMs 200, .call 6, .sleepMs 200,
         .call 7, .sleepMs 200, .call 8, .sleepMs 200, .call 9, .sleepMs 200,
         .call 10] := rfl
  rw [hgt] at h
  have hmain : attempt_booking (.ok ()) email (fun n => .err (m n))
      = ([.call 1, .sleepMs 200, .call 2, .sleepMs 200, .call 3, .sleepMs 200,
          .call 4, .sleepMs 200, .call 5, .sleepMs 200, .call 6, .sleepMs 200,
          .call 7, .sleepMs 200, .call 8, .sleepMs 200, .call 9, .sleepMs 200,
          .call 10]
          ++ (if email then [Event.emailFailure "Max booking attempts reached"] else []),
         .error "Max attempts reached") := by
    simpa [attempt_booking] using h
  refine ⟨hmain, ?_⟩
  rw [hmain]
  cases email <;> rfl

/-- C3 witness: the always-"boom" stub exhausts all ten attempts. -/
theorem attempt_booking_generic_exhausts_budget_witness :
    attempt_booking (.ok ()) true (fun n => .err ((fun _ => "boom") n))
      = ([.call 1, .sleepMs 200, .call 2, .sleepMs 200, .call 3, .sleepMs 200,
          .call 4, .sleepMs 200, .call 5, .sleepMs 200, .call 6, .sleepMs 200,
          .call 7, .sleepMs 200, .call 8, .sleepMs 200, .call 9, .sleepMs 200,
          .call 10, .emailFailure "Max booking attempts reached"],
         .error "Max attempts reached") := by
  have h := (attempt_booking_generic_exhausts_budget true (fun _ => "boom")
    (fun _ => (by decide : genericError "boom" = true))).1
  simpa using h

/-- C4: when every reservation call fails with the daily-limit token,
`attempt_booking` makes exactly one call and returns a permanent failure
immediately: no retry and no inter-attempt sleep. -/
theorem attempt_booking_daily_limit_stops (email : Bool) (m : Nat → String)
    (hda : ∀ n, strContains (m n) "DailyBookingLimitReached" = true) :
    attempt_booking (.ok ()) email (fun n => .err (m n))
      = ([Event.call 1]
          ++ (if email then
                [Event.emailFailure
                  "Daily booking limit reached - you already have a class booked on this day"]
              else []),
         .error "Daily booking limit reached") := by
  have hMA : MAX_ATTEMPTS = 9 + 1 := rfl
  simp only [attempt_booking, hMA]
  rw [bookLoop_succ]
  simp [hda 1]

/-- C4 witness: the daily-limit stub stops after one call. -/
theorem attempt_booking_daily_limit_stops_witness :
    attempt_booking (.ok ()) true
        (fun n => .err ((fun _ => "DailyBookingLimitReached") n))
      = ([Event.call 1,
          Event.emailFailure
            "Daily booking limit reached - you already have a class booked on this day"],
         .error "Daily booking limit reached") := by
  have h := attempt_booking_daily_limit_stops true
    (fun _ => "DailyBookingLimitReached")
    (fun _ => (by decide :
      strContains "DailyBookingLimitReached" "DailyBookingLimitReached" = true))
  simpa using h

/-- C5 counterexample: with email configured, a stub failing with
"Already booked" makes `attempt_booking` terminate successfully after
one call while emitting zero notifications — refuting "never zero". -/
theorem attempt_booking_already_zero_notifications :
    attempt_booking (.ok ()) true (fun _ => .err "Already booked")
      = ([Event.call 1], .ok ())
    ∧ notifCount [Event.call 1] = 0 :=
  ⟨rfl, rfl⟩

/-- C5 amended: every terminating invocation of `attempt_booking` emits
at most one notification (so never both a success and a failure
notification); zero notifications occur on the already-booked success
path, on login failure, and whenever no email notifier is configured. -/
theorem attempt_booking_at_most_one_notification (login : Except String Unit)
    (email : Bool) (book : Nat → BookResult) :
    notifCount (attempt_booking login email book).1 ≤ 1 := by
  cases login with
  | error e => simp [attempt_booking, notifCount]
  | ok u => simpa [attempt_booking] using notifCount_bookLoop_le_one email book MAX_ATTEMPTS 0

/-- C8 counterexample: a pending entry whose booking window is
5 minutes 30 seconds away — more than 5 minutes in real time — makes the
daemon proceed to the snipe branch (login and booking attempts) instead
of sleeping, because `num_minutes` truncates 5.5 minutes down to 5. -/
theorem daemon_five_minute_gate_counterexample :
    snipe_daemon_iteration
        (SnipeQueue.save
          ⟨[⟨7, "Yoga", 691200000, 330000, none, 0, .Pending, none⟩],
           some SNIPES_FILE⟩ (fun _ => none))
        0
      = .ok (.snipe 7,
          SnipeQueue.save
            ⟨[⟨7, "Yoga", 691200000, 330000, none, 0, .Pending, none⟩],
             some SNIPES_FILE⟩ (fun _ => none))
    ∧ (5 * msPerMinute : Int) < 330000 - 0 :=
  ⟨rfl, by decide⟩

/-- C8 amended: in a daemon iteration whose loaded-and-cleaned queue has
an earliest-opening Pending entry with more than five *whole* minutes
(truncated, `num_minutes`) remaining until its booking window, the
iteration performs no login and no booking attempt: it only sleeps, for
30 minutes when more than 60 whole minutes remain, 10 minutes when more
than 30 whole minutes remain, and 1 minute otherwise, then restarts the
loop (each iteration re-reads the queue from disk). -/
theorem daemon_far_window_sleeps (fs : FS) (now : Int) (q : SnipeQueue)
    (next : SnipeEntry) (rest : List SnipeEntry)
    (hload : (SnipeQueue.load_from fs SNIPES_FILE).1 = .ok q)
    (hpend : (q.cleanup_old_entries fs now).1.pending_snipes = next :: rest)
    (hfar : num_minutes (next.booking_window - now) > 5) :
    snipe_daemon_iteration fs now
      = .ok (.sleepSecs
          (if num_minutes (next.booking_window - now) > 60 then 30 * 60
           else if num_minutes (next.booking_window - now) > 30 then 10 * 60
           else 60),
         (q.cleanup_old_entries fs now).2) := by
  simp only [snipe_daemon_iteration, hload]
  simp only [hpend]
  rw [if_pos hfar]

/-- C8 witness: an entry whose window opens in exactly 90 minutes makes
the iteration sleep 30 minutes without snipe dispatch. -/
theorem daemon_far_window_sleeps_witness :
    snipe_daemon_iteration
        (SnipeQueue.save
          ⟨[⟨7, "Yoga", 691200000, 5400000, none, 0, .Pending, none⟩],
           some SNIPES_FILE⟩ (fun _ => none))
        0
      = .ok (.sleepSecs 1800,
          SnipeQueue.save
            ⟨[⟨7, "Yoga", 691200000, 5400000, none, 0, .Pending, none⟩],
             some SNIPES_FILE⟩ (fun _ => none)) :=
  (daemon_far_window_sleeps
    (SnipeQueue.save
      ⟨[⟨7, "Yoga", 691200000, 5400000, none, 0, .Pending, none⟩],
       some SNIPES_FILE⟩ (fun _ => none))
    0
    ⟨[⟨7, "Yoga", 691200000, 5400000, none, 0, .Pending, none⟩],
     some SNIPES_FILE⟩
    ⟨7, "Yoga", 691200000, 5400000, none, 0, .Pending, none⟩
    []
    rfl rfl (by decide)).trans rfl
